import Mathlib

/-!
Verification of the action-protocol dispatch engine of the `jarvis.py`
desktop assistant: the action-line parser (`try_parse_action` and its
regex `ACTION_REGEX`), the JSON payload decoder (`json.loads`), the
capability registry (`TOOLBOX`), the dispatcher (`execute_action`), the
confirmation policy (`maybe_confirm` plus the inline `system_command`
gate), the conversation transcript (`Conversation`), and the per-turn
controller taken from the body of `main`'s loop.

OS-level capability implementations (process launch, shell execution,
keyboard and mouse control, clipboard) are abstracted as a record of
effect functions (`Tools`); a Python exception raised by a capability or
by an argument coercion is modelled as `Except.error`.  The dispatcher
records the names of the capability functions it invokes, so invocation
counts are observable, and it threads the queue of operator responses
(`stdin`) read by `input()`.
-/

namespace Jarvis

/-- JSON values as produced by Python `json.loads`.  Integer literals land
in `num`; literals with a fractional part or an exponent, and the
non-standard `NaN`, `Infinity`, `-Infinity` literals accepted by Python,
land in `flt`, which keeps the raw token (the dispatcher never inspects
their numeric value, only coercibility). -/
inductive JValue where
  | null
  | bool (b : Bool)
  | num (n : Int)
  | flt (raw : String)
  | str (s : String)
  | arr (elems : List JValue)
  | obj (fields : List (String × JValue))

/-- Whitespace for Python's `str.strip()` and `re` `\s` on `str` patterns:
the ASCII whitespace characters plus the file/group/record/unit
separators and the common Unicode space code points. -/
def pyWs (c : Char) : Bool :=
  c == ' ' || c == '\t' || c == '\n' || c == '\x0d' || c == '\x0b' || c == '\x0c' ||
  c == '\x1c' || c == '\x1d' || c == '\x1e' || c == '\x1f' || c == '\x85' || c == '\xa0' ||
  c == '\u1680' || (if '\u2000' ≤ c ∧ c ≤ '\u200a' then true else false) ||
  c == '\u2028' || c == '\u2029' || c == '\u202f' || c == '\u205f' || c == '\u3000'

/-- Python `str.strip()` on a character list. -/
def pyStripL (cs : List Char) : List Char :=
  ((cs.dropWhile pyWs).reverse.dropWhile pyWs).reverse

/-- ASCII lower-casing of one character (`str.lower()` restricted to the
ASCII range; the operator responses compared against `"y"` are ASCII). -/
def pyLowerC (c : Char) : Char :=
  if 'A' ≤ c ∧ c ≤ 'Z' then Char.ofNat (c.toNat + 32) else c

/-- Python `str.lower()`. -/
def pyLowerS (s : String) : String := ⟨s.data.map pyLowerC⟩

/-- Python `str.strip()`. -/
def pyStripS (s : String) : String := ⟨pyStripL s.data⟩

/-- Character class `[a-zA-Z_]` of `ACTION_REGEX`. -/
def isNameChar (c : Char) : Bool :=
  if ('a' ≤ c ∧ c ≤ 'z') ∨ ('A' ≤ c ∧ c ≤ 'Z') ∨ c = '_' then true else false

/-- Consume an exact literal prefix, returning the remainder. -/
def dropLit : List Char → List Char → Option (List Char)
  | [], cs => some cs
  | p :: ps, c :: cs => if c == p then dropLit ps cs else none
  | _ :: _, [] => none

/-- JSON inter-token whitespace accepted by Python's `json` decoder
(`[ \t\n\r]`). -/
def jWs (c : Char) : Bool := c == ' ' || c == '\t' || c == '\n' || c == '\x0d'

def skipWs (cs : List Char) : List Char := cs.dropWhile jWs

def hexVal (c : Char) : Option Nat :=
  if '0' ≤ c ∧ c ≤ '9' then some (c.toNat - 48)
  else if 'a' ≤ c ∧ c ≤ 'f' then some (c.toNat - 87)
  else if 'A' ≤ c ∧ c ≤ 'F' then some (c.toNat - 55)
  else none

/-- Decode a JSON string body (the characters after the opening quote),
returning the decoded characters and the input remaining after the
closing quote.  Mirrors Python `json.loads` in strict mode: raw control
characters are rejected, the eight standard escapes and `\uXXXX` are
decoded, and a high/low surrogate escape pair is combined into one code
point.  A lone surrogate (which Python keeps as a lone code unit, a value
a Lean `Char` cannot carry) is mapped to U+FFFD; this affects only the
decoded text of such strings, not which payloads are accepted.  The fuel
argument is called with `length + 1`, which suffices because every step
consumes at least one character. -/
def parseStr : Nat → List Char → Option (List Char × List Char)
  | 0, _ => none
  | _ + 1, [] => none
  | _ + 1, '"' :: rest => some ([], rest)
  | f + 1, '\\' :: rest =>
    match rest with
    | '"' :: r => (parseStr f r).map (fun p => ('"' :: p.1, p.2))
    | '\\' :: r => (parseStr f r).map (fun p => ('\\' :: p.1, p.2))
    | '/' :: r => (parseStr f r).map (fun p => ('/' :: p.1, p.2))
    | 'b' :: r => (parseStr f r).map (fun p => ('\x08' :: p.1, p.2))
    | 'f' :: r => (parseStr f r).map (fun p => ('\x0c' :: p.1, p.2))
    | 'n' :: r => (parseStr f r).map (fun p => ('\n' :: p.1, p.2))
    | 'r' :: r => (parseStr f r).map (fun p => ('\x0d' :: p.1, p.2))
    | 't' :: r => (parseStr f r).map (fun p => ('\t' :: p.1, p.2))
    | 'u' :: h1 :: h2 :: h3 :: h4 :: r =>
      match hexVal h1, hexVal h2, hexVal h3, hexVal h4 with
      | some a, some b, some c, some d =>
        let n := ((a * 16 + b) * 16 + c) * 16 + d
        if 0xd800 ≤ n ∧ n ≤ 0xdbff then
          match r with
          | '\\' :: 'u' :: g1 :: g2 :: g3 :: g4 :: r2 =>
            match hexVal g1, hexVal g2, hexVal g3, hexVal g4 with
            | some a2, some b2, some c2, some d2 =>
              let m := ((a2 * 16 + b2) * 16 + c2) * 16 + d2
              if 0xdc00 ≤ m ∧ m ≤ 0xdfff then
                (parseStr f r2).map (fun p =>
                  (Char.ofNat (0x10000 + (n - 0xd800) * 0x400 + (m - 0xdc00)) :: p.1, p.2))
              else (parseStr f r).map (fun p => ('\ufffd' :: p.1, p.2))
            | _, _, _, _ => (parseStr f r).map (fun p => ('\ufffd' :: p.1, p.2))
          | _ => (parseStr f r).map (fun p => ('\ufffd' :: p.1, p.2))
        else if 0xdc00 ≤ n ∧ n ≤ 0xdfff then
          (parseStr f r).map (fun p => ('\ufffd' :: p.1, p.2))
        else (parseStr f r).map (fun p => (Char.ofNat n :: p.1, p.2))
      | _, _, _, _ => none
    | _ => none
  | f + 1, c :: rest =>
    if c.toNat < 0x20 then none
    else (parseStr f rest).map (fun p => (c :: p.1, p.2))

def digitsToNat (ds : List Char) : Nat :=
  ds.foldl (fun acc c => acc * 10 + (c.toNat - 48)) 0

/-- The number grammar of Python's `json` scanner:
`(-?(?:0|[1-9]\d*))(\.\d+)?([eE][-+]?\d+)?`.  A plain integer literal
becomes `num`; a fractional part or exponent makes it a float (`flt`),
whose raw token is retained.  A malformed suffix (for example `1.` or
`1e`) is simply not consumed, exactly as the scanner's regex stops before
it. -/
def parseNum (cs : List Char) : Option (JValue × List Char) :=
  let (neg, cs1) := match cs with
    | '-' :: r => (true, r)
    | _ => (false, cs)
  match cs1 with
  | [] => none
  | c :: _ =>
    if ¬ c.isDigit then none
    else
      let ip := if c == '0' then ['0'] else cs1.takeWhile Char.isDigit
      let rest1 := cs1.drop ip.length
      let (fracPart, rest2) :=
        match rest1 with
        | '.' :: r2 =>
          let fd := r2.takeWhile Char.isDigit
          if fd.isEmpty then (([] : List Char), rest1) else ('.' :: fd, r2.drop fd.length)
        | _ => (([] : List Char), rest1)
      let (expPart, rest3) :=
        match rest2 with
        | e :: r3 =>
          if e == 'e' || e == 'E' then
            let (sg, r4) := match r3 with
              | '+' :: r => ((['+'] : List Char), r)
              | '-' :: r => ((['-'] : List Char), r)
              | _ => (([] : List Char), r3)
            let ed := r4.takeWhile Char.isDigit
            if ed.isEmpty then (([] : List Char), rest2)
            else (e :: (sg ++ ed), r4.drop ed.length)
          else (([] : List Char), rest2)
        | _ => (([] : List Char), rest2)
      if fracPart.isEmpty && expPart.isEmpty then
        let v : Int := Int.ofNat (digitsToNat ip)
        some (JValue.num (if neg then -v else v), rest2)
      else
        some (JValue.flt ⟨(if neg then ['-'] else []) ++ ip ++ fracPart ++ expPart⟩, rest3)

mutual

/-- One JSON value, expected at the head of the input (leading whitespace
already skipped by the caller).  Fuel decreases on every recursive call;
`length + 1` fuel suffices because at least one character is consumed
between consecutive decrements. -/
def parseVal : Nat → List Char → Option (JValue × List Char)
  | 0, _ => none
  | f + 1, cs =>
    match cs with
    | '\x7b' :: rest =>
      match skipWs rest with
      | '\x7d' :: r => some (JValue.obj [], r)
      | r =>
        match parseMembers f r with
        | some (kvs, r2) => some (JValue.obj kvs, r2)
        | none => none
    | '[' :: rest =>
      match skipWs rest with
      | ']' :: r => some (JValue.arr [], r)
      | r =>
        match parseItems f r with
        | some (vs, r2) => some (JValue.arr vs, r2)
        | none => none
    | '"' :: rest =>
      match parseStr (rest.length + 1) rest with
      | some (content, r) => some (JValue.str ⟨content⟩, r)
      | none => none
    | 't' :: rest =>
      match dropLit ['r', 'u', 'e'] rest with
      | some r => some (JValue.bool true, r)
      | none => none
    | 'f' :: rest =>
      match dropLit ['a', 'l', 's', 'e'] rest with
      | some r => some (JValue.bool false, r)
      | none => none
    | 'n' :: rest =>
      match dropLit ['u', 'l', 'l'] rest with
      | some r => some (JValue.null, r)
      | none => none
    | 'N' :: rest =>
      match dropLit ['a', 'N'] rest with
      | some r => some (JValue.flt "nan", r)
      | none => none
    | 'I' :: rest =>
      match dropLit ['n', 'f', 'i', 'n', 'i', 't', 'y'] rest with
      | some r => some (JValue.flt "inf", r)
      | none => none
    | '-' :: 'I' :: rest =>
      match dropLit ['n', 'f', 'i', 'n', 'i', 't', 'y'] rest with
      | some r => some (JValue.flt "-inf", r)
      | none => none
    | cs2 => parseNum cs2

/-- The members of a JSON object after its `{` (and after the empty-object
check): `ws "key" ws : ws value ws (, members | })`. -/
def parseMembers : Nat → List Char → Option (List (String × JValue) × List Char)
  | 0, _ => none
  | f + 1, cs =>
    match skipWs cs with
    | '"' :: r =>
      match parseStr (r.length + 1) r with
      | none => none
      | some (key, r2) =>
        match skipWs r2 with
        | ':' :: r3 =>
          match parseVal f (skipWs r3) with
          | none => none
          | some (v, r4) =>
            match skipWs r4 with
            | ',' :: r5 =>
              match parseMembers f r5 with
              | some (kvs, r6) => some ((⟨key⟩, v) :: kvs, r6)
              | none => none
            | '\x7d' :: r5 => some ([(⟨key⟩, v)], r5)
            | _ => none
        | _ => none
    | _ => none

/-- The items of a JSON array after its `[` (and after the empty-array
check). -/
def parseItems : Nat → List Char → Option (List JValue × List Char)
  | 0, _ => none
  | f + 1, cs =>
    match parseVal f (skipWs cs) with
    | none => none
    | some (v, r) =>
      match skipWs r with
      | ',' :: r2 =>
        match parseItems f r2 with
        | some (vs, r3) => some (v :: vs, r3)
        | none => none
      | ']' :: r2 => some ([v], r2)
      | _ => none

end

/-- Python `json.loads`: decode one JSON document, allowing surrounding
whitespace and requiring the whole input to be consumed (`None` models a
raised `json.JSONDecodeError`). -/
def json_loads (s : String) : Option JValue :=
  let cs := skipWs s.data
  match parseVal (cs.length + 1) cs with
  | some (v, rest) => if (skipWs rest).isEmpty then some v else none
  | none => none

/-- The match of `ACTION_REGEX = ^ACTION\s+([a-zA-Z_]+)\s+(\{.*\})\s*$`
(compiled with `re.DOTALL`) against an already-stripped character list.
Because the name class, `\s`, and `{` are pairwise disjoint, the regex's
greedy matching is equivalent to: the literal `ACTION`, a maximal
non-empty whitespace run, a maximal non-empty name run, a maximal
non-empty whitespace run, and then the whole remainder as the
brace-delimited group, which must begin with `{` and (as the stripped
input has no trailing whitespace for `\s*$` to take) end with `}`. -/
def matchActionLineL (cs : List Char) : Option (List Char × List Char) :=
  match dropLit ("ACTION".data) cs with
  | none => none
  | some r1 =>
    let w1 := r1.takeWhile pyWs
    let r2 := r1.dropWhile pyWs
    if w1.isEmpty then none
    else
      let nm := r2.takeWhile isNameChar
      let r3 := r2.dropWhile isNameChar
      if nm.isEmpty then none
      else
        let w2 := r3.takeWhile pyWs
        let p := r3.dropWhile pyWs
        if w2.isEmpty then none
        else
          if p.head? == some '\x7b' && p.getLast? == some '\x7d' then some (nm, p)
          else none

/-- `ACTION_REGEX.match(text.strip())`, returning the two captured groups
(action name, raw JSON payload). -/
def matchActionLine (s : String) : Option (String × String) :=
  match matchActionLineL (pyStripL s.data) with
  | some (nm, p) => some (⟨nm⟩, ⟨p⟩)
  | none => none

/-- `try_parse_action` from the source: match the one-line action grammar
against the stripped text, then `json.loads` the captured payload;
`none` models the `(None, None)` result.  A payload that matches the
regex necessarily starts with `{`, so a successful `json.loads` always
yields an object; the wildcard branch also absorbs the
`json.JSONDecodeError` path. -/
def try_parse_action (s : String) : Option (String × List (String × JValue)) :=
  match matchActionLine s with
  | none => none
  | some (name, payload) =>
    match json_loads payload with
    | some (JValue.obj kvs) => some (name, kvs)
    | _ => none

/-- A transcript entry (`Message` dataclass from the source). -/
structure Message where
  role : String
  content : String
deriving DecidableEq

/-- The conversation transcript (`Conversation` dataclass). -/
structure Conversation where
  messages : List Message
deriving DecidableEq

/-- `Conversation.add`: append one role-tagged message. -/
def Conversation.add (c : Conversation) (role content : String) : Conversation :=
  { messages := c.messages ++ [{ role := role, content := content }] }

/-- The key set of the source's `TOOLBOX` dict, in declaration order. -/
def TOOLBOX_names : List String :=
  ["search_web", "open_app", "type_text", "press", "hotkey", "move_mouse",
   "click", "scroll", "screenshot", "read_clipboard", "write_clipboard", "system_command"]

/-- `DESTRUCTIVE_ACTIONS = {"shutdown", "restart", "delete_file"}`. -/
def DESTRUCTIVE_ACTIONS : List String := ["shutdown", "restart", "delete_file"]

/-- The capability functions of `TOOLBOX`, abstracted over their OS-level
effects: each takes the arguments `execute_action` hands it (raw JSON
values where the source passes `args.get(...)` unconverted, machine
integers where it applies `int(...)`) and either returns its text result
or raises (`Except.error`).  Instantiating this record with stubs or
spies gives the "registry stub" setup the testable properties describe. -/
structure Tools where
  search_web : JValue → Int → Except String String
  open_app : JValue → Except String String
  type_text : JValue → Except String String
  press : JValue → Except String String
  hotkey : JValue → Except String String
  move_mouse : Int → Int → JValue → Except String String
  click : JValue → Int → Except String String
  scroll : Int → Except String String
  screenshot : JValue → Except String String
  read_clipboard : Unit → Except String String
  write_clipboard : JValue → Except String String
  system_command : JValue → Except String String

/-- Python `dict.get` on the parsed argument object (a later duplicate key
overwrites an earlier one, as in a Python dict built by `json.loads`). -/
def dictGet : List (String × JValue) → String → Option JValue
  | [], _ => none
  | (k, v) :: rest, key =>
    match dictGet rest key with
    | some r => some r
    | none => if k == key then some v else none

/-- `args.get(key, default)`. -/
def dictGetD (kvs : List (String × JValue)) (key : String) (d : JValue) : JValue :=
  (dictGet kvs key).getD d

/-- Python `int(x)` on a string: optional surrounding whitespace, optional
sign, decimal digits.  (Underscore digit grouping and non-ASCII decimal
digits, which CPython also accepts, are not modelled; no claim involves
them.) -/
def pyIntOfStr (s : String) : Except String Int :=
  let cs := pyStripL s.data
  let (neg, cs1) := match cs with
    | '-' :: r => (true, r)
    | '+' :: r => (false, r)
    | _ => (false, cs)
  if cs1 ≠ [] ∧ cs1.all Char.isDigit then
    let v : Int := Int.ofNat (digitsToNat cs1)
    Except.ok (if neg then -v else v)
  else
    Except.error ("invalid literal for int() with base 10: \x27" ++ s ++ "\x27")

/-- Truncation toward zero of a JSON float literal, for Python `int(x)`
applied to a float.  The raw token has the shape produced by `parseNum`
(or is one of the `nan`/`inf` markers, which raise). -/
def truncFloat (raw : String) : Except String Int :=
  if raw == "nan" then Except.error "cannot convert float NaN to integer"
  else if raw == "inf" || raw == "-inf" then
    Except.error "cannot convert float infinity to integer"
  else
    let cs := raw.data
    let (neg, cs1) := match cs with
      | '-' :: r => (true, r)
      | _ => (false, cs)
    let ip := cs1.takeWhile Char.isDigit
    let rest1 := cs1.drop ip.length
    let (fd, rest2) :=
      match rest1 with
      | '.' :: r => (r.takeWhile Char.isDigit, r.drop ((r.takeWhile Char.isDigit).length))
      | _ => (([] : List Char), rest1)
    let ex : Int :=
      match rest2 with
      | _ :: r =>
        (match r with
         | '-' :: r2 => - Int.ofNat (digitsToNat (r2.takeWhile Char.isDigit))
         | '+' :: r2 => Int.ofNat (digitsToNat (r2.takeWhile Char.isDigit))
         | _ => Int.ofNat (digitsToNat (r.takeWhile Char.isDigit)))
      | [] => 0
    let mant : Nat := digitsToNat (ip ++ fd)
    let scale : Int := ex - Int.ofNat fd.length
    let mag : Nat :=
      match scale with
      | Int.ofNat k => mant * 10 ^ k
      | Int.negSucc k => mant / 10 ^ (k + 1)
    let v : Int := Int.ofNat mag
    Except.ok (if neg then -v else v)

/-- Python `int(x)` on a JSON value: exact for ints, 1/0 for bools,
digit-string parsing for strings, truncation for floats; `None`, lists
and dicts raise `TypeError`. -/
def pyInt : JValue → Except String Int
  | JValue.num n => Except.ok n
  | JValue.bool b => Except.ok (if b then 1 else 0)
  | JValue.str s => pyIntOfStr s
  | JValue.flt raw => truncFloat raw
  | JValue.null =>
    Except.error "int() argument must be a string, a bytes-like object or a real number, not \x27NoneType\x27"
  | JValue.arr _ =>
    Except.error "int() argument must be a string, a bytes-like object or a real number, not \x27list\x27"
  | JValue.obj _ =>
    Except.error "int() argument must be a string, a bytes-like object or a real number, not \x27dict\x27"

/-- Whether Python `float(s)` accepts the string `s`: optional whitespace
and sign around a decimal literal, `inf`, `infinity` or `nan`
(case-insensitive).  (Underscore grouping again not modelled.) -/
def floatStrOk (s : String) : Bool :=
  let cs := pyStripL s.data
  let cs1 := match cs with
    | '-' :: r => r
    | '+' :: r => r
    | _ => cs
  let low := cs1.map pyLowerC
  if low == ['i', 'n', 'f'] || low == ['i', 'n', 'f', 'i', 'n', 'i', 't', 'y'] ||
      low == ['n', 'a', 'n'] then true
  else
    let ip := cs1.takeWhile Char.isDigit
    let r1 := cs1.drop ip.length
    let (fd, r2) :=
      match r1 with
      | '.' :: r => (r.takeWhile Char.isDigit, r.drop ((r.takeWhile Char.isDigit).length))
      | _ => (([] : List Char), r1)
    if ip.isEmpty && fd.isEmpty then false
    else
      match r2 with
      | [] => true
      | e :: r3 =>
        if e == 'e' || e == 'E' then
          let r4 := match r3 with
            | '-' :: r => r
            | '+' :: r => r
            | _ => r3
          ¬ r4.isEmpty && r4.all Char.isDigit
        else false

/-- Python `float(x)` as a coercion check: the dispatcher only needs to
know whether it raises, and passes the (numeric) value on to the
capability, so the successful result is the original JSON value. -/
def pyFloatCk : JValue → Except String JValue
  | JValue.num n => Except.ok (JValue.num n)
  | JValue.flt raw => Except.ok (JValue.flt raw)
  | JValue.bool b => Except.ok (JValue.bool b)
  | JValue.str s =>
    if floatStrOk s then Except.ok (JValue.str s)
    else Except.error ("could not convert string to float: \x27" ++ s ++ "\x27")
  | JValue.null =>
    Except.error "float() argument must be a string or a real number, not \x27NoneType\x27"
  | JValue.arr _ =>
    Except.error "float() argument must be a string or a real number, not \x27list\x27"
  | JValue.obj _ =>
    Except.error "float() argument must be a string or a real number, not \x27dict\x27"

/-- Python `str(x)`/f-string rendering of a JSON value, used by the
capability bodies for their result text (`f"Opened ..."`).  Containers
are rendered approximately; every claim applies this to strings only. -/
def fmtVal : JValue → String
  | JValue.str s => s
  | JValue.num n => toString n
  | JValue.bool b => if b then "True" else "False"
  | JValue.null => "None"
  | JValue.flt raw => raw
  | JValue.arr _ => "[...]"
  | JValue.obj _ => "\x7b...\x7d"

/-- `maybe_confirm` from the source: a destructive action blocks on
`input()` and is allowed only when the stripped, lower-cased response is
exactly `"y"`; anything else is allowed unconditionally.  The response
queue models stdin; an exhausted queue is the `EOFError` that `input()`
raises, which `main` does not catch. -/
def maybe_confirm (action_name : String) (stdin : List String) :
    Except String (Bool × List String) :=
  if DESTRUCTIVE_ACTIONS.contains action_name then
    match stdin with
    | [] => Except.error "EOF when reading a line"
    | resp :: rest => Except.ok (pyLowerS (pyStripS resp) == "y", rest)
  else Except.ok (true, stdin)

/-- The body of `execute_action`'s `try` block, for a registered action
name: coerce the declared arguments in the source's evaluation order,
then invoke the capability function.  The result carries the pending
exception or result text, the list of capability functions invoked, and
the remaining operator-response queue (the `system_command` branch reads
one response before deciding whether to invoke anything).  The source's
trailing generic `fn(**args)` fallback is unreachable: every registered
name is handled by the explicit branches. -/
def executeBody (t : Tools) (action_name : String) (args : List (String × JValue))
    (stdin : List String) : Except String String × List String × List String :=
  if action_name == "press" then
    (t.press (dictGetD args "keys" (JValue.arr [])), ["press"], stdin)
  else if action_name == "hotkey" then
    (t.hotkey (dictGetD args "keys" (JValue.arr [])), ["hotkey"], stdin)
  else if action_name == "move_mouse" then
    match pyInt (dictGetD args "x" (JValue.num 0)) with
    | Except.error e => (Except.error e, [], stdin)
    | Except.ok x =>
      match pyInt (dictGetD args "y" (JValue.num 0)) with
      | Except.error e => (Except.error e, [], stdin)
      | Except.ok y =>
        match pyFloatCk (dictGetD args "duration" (JValue.flt "0.2")) with
        | Except.error e => (Except.error e, [], stdin)
        | Except.ok d => (t.move_mouse x y d, ["move_mouse"], stdin)
  else if action_name == "click" then
    match pyInt (dictGetD args "clicks" (JValue.num 1)) with
    | Except.error e => (Except.error e, [], stdin)
    | Except.ok n => (t.click (dictGetD args "button" (JValue.str "left")) n, ["click"], stdin)
  else if action_name == "scroll" then
    match pyInt (dictGetD args "amount" (JValue.num 0)) with
    | Except.error e => (Except.error e, [], stdin)
    | Except.ok n => (t.scroll n, ["scroll"], stdin)
  else if action_name == "screenshot" then
    (t.screenshot (dictGetD args "path" (JValue.str "./screenshot.png")), ["screenshot"], stdin)
  else if action_name == "write_clipboard" then
    (t.write_clipboard (dictGetD args "text" (JValue.str "")), ["write_clipboard"], stdin)
  else if action_name == "system_command" then
    match stdin with
    | [] => (Except.error "EOF when reading a line", [], stdin)
    | resp :: rest =>
      if pyLowerS (pyStripS resp) ≠ "y" then (Except.ok "Cancelled.", [], rest)
      else (t.system_command (dictGetD args "cmd" (JValue.str "")), ["system_command"], rest)
  else if action_name == "search_web" then
    match pyInt (dictGetD args "max_results" (JValue.num 5)) with
    | Except.error e => (Except.error e, [], stdin)
    | Except.ok n => (t.search_web (dictGetD args "query" (JValue.str "")) n, ["search_web"], stdin)
  else if action_name == "open_app" then
    (t.open_app (dictGetD args "name" (JValue.str "")), ["open_app"], stdin)
  else if action_name == "type_text" then
    (t.type_text (dictGetD args "text" (JValue.str "")), ["type_text"], stdin)
  else if action_name == "read_clipboard" then
    (t.read_clipboard (), ["read_clipboard"], stdin)
  else
    (Except.error "unreachable fallback", [], stdin)

/-- `execute_action` from the source: unknown names fail fast without
invoking anything; for registered names the `try` body runs and any
exception it raises is caught and rendered as
`"Tool execution failed: ..."`.  The function always returns a text
outcome; no exception escapes it. -/
def execute_action (t : Tools) (action_name : String) (args : List (String × JValue))
    (stdin : List String) : String × List String × List String :=
  if TOOLBOX_names.contains action_name then
    match executeBody t action_name args stdin with
    | (Except.ok s, invs, st) => (s, invs, st)
    | (Except.error e, invs, st) => ("Tool execution failed: " ++ e, invs, st)
  else
    ("Unknown action \x27" ++ action_name ++ "\x27.", [], stdin)

/-- `tool_open_app`, with the platform-specific process launch abstracted
as `popen` (the Windows name mapping only changes which executable is
launched, never the returned text): the internal `try` turns a launch
failure into a `"Failed to open ..."` text, so this capability never
raises. -/
def tool_open_app (popen : JValue → Except String Unit) (name : JValue) : String :=
  match popen name with
  | Except.ok _ => "Opened " ++ fmtVal name ++ "."
  | Except.error e => "Failed to open " ++ fmtVal name ++ ": " ++ e

/-- The two failure modes of `subprocess.check_output` that
`tool_system_command` distinguishes. -/
inductive ShellErr where
  | called (returncode : Int) (output : String)
  | other (msg : String)

/-- `tool_system_command`, with `subprocess.check_output` abstracted as
`check_output`: both except-branches return text, so this capability
never raises. -/
def tool_system_command (check_output : JValue → Except ShellErr String)
    (cmd : JValue) : String :=
  match check_output cmd with
  | Except.ok out => out
  | Except.error (ShellErr.called code out) =>
    "Command failed with code " ++ toString code ++ ":\n" ++ out
  | Except.error (ShellErr.other e) => "Command failed: " ++ e

/-- A process launcher that always succeeds. -/
def popen0 : JValue → Except String Unit := fun _ => Except.ok ()

/-- A shell that always succeeds with output `"ok"`. -/
def sh0 : JValue → Except ShellErr String := fun _ => Except.ok "ok"

/-- A concrete registry instance: `open_app` and `system_command` are the
translated capability bodies over succeeding OS primitives, the remaining
capabilities are succeeding stubs. -/
def tools0 : Tools where
  search_web := fun _ _ => Except.ok "No results."
  open_app := fun n => Except.ok (tool_open_app popen0 n)
  type_text := fun _ => Except.ok "Typed."
  press := fun _ => Except.ok "Pressed."
  hotkey := fun _ => Except.ok "Hotkey."
  move_mouse := fun _ _ _ => Except.ok "Moved."
  click := fun _ _ => Except.ok "Clicked."
  scroll := fun _ => Except.ok "Scrolled."
  screenshot := fun _ => Except.ok "Saved."
  read_clipboard := fun _ => Except.ok ""
  write_clipboard := fun _ => Except.ok "Copied to clipboard."
  system_command := fun c => Except.ok (tool_system_command sh0 c)

/-- The observable outcome of one user turn of `main`'s loop (text mode;
speech output is an out-of-scope collaborator).  `finalAnswer` is the
text printed as Jarvis's reply (`none` when a first-call model error
aborts the turn), `modelCalls` counts `call_llm` invocations,
`invocations` the capability functions the dispatcher invoked, and
`stdin` the not-yet-consumed operator responses. -/
structure TurnOut where
  conv : Conversation
  finalAnswer : Option String
  modelCalls : Nat
  invocations : List String
  stdin : List String
deriving DecidableEq

/-- One iteration of `main`'s loop after a (non-quit) user utterance has
been read, translated from the source: append the user message, call the
model, parse for an action; on a match confirm, dispatch, append the raw
assistant reply and the tool result, call the model again and emit that
second completion unconditionally as the final answer; on denial emit
`"Action denied."`; on no match emit the reply itself.  The outer
`Except` is an uncaught `EOFError` from `maybe_confirm`'s `input()`
(`main` wraps only the `call_llm` calls in `try`). -/
def runTurn (llm : Conversation → Except String String) (t : Tools)
    (conv : Conversation) (userText : String) (stdin : List String) :
    Except String TurnOut :=
  let conv1 := conv.add "user" userText
  match llm conv1 with
  | Except.error _ =>
    Except.ok { conv := conv1, finalAnswer := none, modelCalls := 1,
                invocations := [], stdin := stdin }
  | Except.ok assistantText =>
    match try_parse_action assistantText with
    | some (name, args) =>
      match maybe_confirm name stdin with
      | Except.error e => Except.error e
      | Except.ok (allowed, stdin1) =>
        if allowed then
          match execute_action t name args stdin1 with
          | (toolOutput, invs, stdin2) =>
            let conv2 := (conv1.add "assistant" assistantText).add "user"
              ("Tool result:\n" ++ toolOutput)
            let finalAnswer := match llm conv2 with
              | Except.ok fa => fa
              | Except.error e => "(Model error after tool) " ++ e
            Except.ok { conv := conv2.add "assistant" finalAnswer,
                        finalAnswer := some finalAnswer, modelCalls := 2,
                        invocations := invs, stdin := stdin2 }
        else
          Except.ok { conv := conv1.add "assistant" "Action denied.",
                      finalAnswer := some "Action denied.", modelCalls := 1,
                      invocations := [], stdin := stdin1 }
    | none =>
      Except.ok { conv := conv1.add "assistant" assistantText,
                  finalAnswer := some assistantText, modelCalls := 1,
                  invocations := [], stdin := stdin }

/-- A model oracle for the notepad scenario: the first call (a transcript
of system + user message) requests `open_app`, the follow-up call returns
the final sentence. -/
def llm8 (c : Conversation) : Except String String :=
  if c.messages.length == 2 then
    Except.ok "ACTION open_app \x7b\"name\":\"notepad\"\x7d"
  else Except.ok "I\x27ve opened Notepad for you."

/-- A model oracle whose follow-up reply embeds a second action line. -/
def llm7 (c : Conversation) : Except String String :=
  if c.messages.length == 2 then
    Except.ok "ACTION open_app \x7b\"name\":\"notepad\"\x7d"
  else Except.ok "ACTION type_text \x7b\"text\":\"hello\"\x7d"

/-- A model oracle requesting the destructive `shutdown` action. -/
def llmShutdown (c : Conversation) : Except String String :=
  if c.messages.length == 2 then Except.ok "ACTION shutdown \x7b\x7d"
  else Except.ok "done"

/-- A successful `dropLit` means the literal was an exact prefix. -/
theorem dropLit_append {pre : List Char} :
    ∀ {cs rest : List Char}, dropLit pre cs = some rest → cs = pre ++ rest := by
  induction pre with
  | nil =>
    intro cs rest h
    simp only [dropLit, Option.some.injEq] at h
    simp [h]
  | cons p ps ih =>
    intro cs rest h
    cases cs with
    | nil => simp [dropLit] at h
    | cons c cs' =>
      simp only [dropLit] at h
      by_cases hc : (c == p) = true
      · rw [if_pos hc] at h
        have hcp : c = p := by simpa using hc
        subst hcp
        simpa using ih h
      · rw [if_neg hc] at h
        exact absurd h (by simp)

/-- Decomposition of a successful `ACTION_REGEX` match: the stripped input
is exactly the literal, whitespace, the name, whitespace, and the
brace-delimited payload -- there is no room for surrounding prose. -/
theorem matchActionLineL_shape {cs nm p : List Char}
    (h : matchActionLineL cs = some (nm, p)) :
    ∃ w1 w2 : List Char,
      cs = ("ACTION".data) ++ w1 ++ nm ++ w2 ++ p ∧
      w1 ≠ [] ∧ w1.all pyWs = true ∧
      nm ≠ [] ∧ nm.all isNameChar = true ∧
      w2 ≠ [] ∧ w2.all pyWs = true ∧
      p.head? = some '\x7b' ∧ p.getLast? = some '\x7d' := by
  unfold matchActionLineL at h
  cases hd : dropLit ("ACTION".data) cs with
  | none => rw [hd] at h; exact absurd h (by simp)
  | some r1 =>
    rw [hd] at h
    simp only [] at h
    by_cases h1 : (r1.takeWhile pyWs).isEmpty = true
    · rw [if_pos h1] at h; exact absurd h (by simp)
    · rw [if_neg h1] at h
      by_cases h2 : ((r1.dropWhile pyWs).takeWhile isNameChar).isEmpty = true
      · rw [if_pos h2] at h; exact absurd h (by simp)
      · rw [if_neg h2] at h
        by_cases h3 : ((((r1.dropWhile pyWs).dropWhile isNameChar)).takeWhile pyWs).isEmpty = true
        · rw [if_pos h3] at h; exact absurd h (by simp)
        · rw [if_neg h3] at h
          by_cases h4 : ((((r1.dropWhile pyWs).dropWhile isNameChar).dropWhile pyWs).head? ==
              some '\x7b' &&
              (((r1.dropWhile pyWs).dropWhile isNameChar).dropWhile pyWs).getLast? ==
              some '\x7d') = true
          · rw [if_pos h4] at h
            obtain ⟨hnm, hp⟩ : (r1.dropWhile pyWs).takeWhile isNameChar = nm ∧
                ((r1.dropWhile pyWs).dropWhile isNameChar).dropWhile pyWs = p := by
              constructor <;> injection h with h' <;> cases h' <;> rfl
            refine ⟨r1.takeWhile pyWs,
              ((r1.dropWhile pyWs).dropWhile isNameChar).takeWhile pyWs,
              ?_, ?_, ?_, ?_, ?_, ?_, ?_, ?_, ?_⟩
            · have eA : r1.dropWhile pyWs =
                  nm ++ ((r1.dropWhile pyWs).dropWhile isNameChar) := by
                have e : (r1.dropWhile pyWs).takeWhile isNameChar ++
                    (r1.dropWhile pyWs).dropWhile isNameChar = r1.dropWhile pyWs := by simp
                rw [hnm] at e
                exact e.symm
              have eB : (r1.dropWhile pyWs).dropWhile isNameChar =
                  (((r1.dropWhile pyWs).dropWhile isNameChar).takeWhile pyWs) ++ p := by
                have e : ((r1.dropWhile pyWs).dropWhile isNameChar).takeWhile pyWs ++
                    ((r1.dropWhile pyWs).dropWhile isNameChar).dropWhile pyWs =
                    (r1.dropWhile pyWs).dropWhile isNameChar := by simp
                rw [hp] at e
                exact e.symm
              calc cs = ("ACTION".data) ++ r1 := dropLit_append hd
                _ = ("ACTION".data) ++ (r1.takeWhile pyWs ++ r1.dropWhile pyWs) := by
                    rw [List.takeWhile_append_dropWhile]
                _ = ("ACTION".data) ++ (r1.takeWhile pyWs ++
                    (nm ++ ((r1.dropWhile pyWs).dropWhile isNameChar))) := by rw [← eA]
                _ = ("ACTION".data) ++ (r1.takeWhile pyWs ++ (nm ++
                    ((((r1.dropWhile pyWs).dropWhile isNameChar).takeWhile pyWs) ++ p))) := by
                    rw [← eB]
                _ = ("ACTION".data) ++ r1.takeWhile pyWs ++ nm ++
                    (((r1.dropWhile pyWs).dropWhile isNameChar).takeWhile pyWs) ++ p := by
                    simp [List.append_assoc]
            · simpa using h1
            · simp
            · rw [← hnm]; simpa using h2
            · rw [← hnm]; simp
            · simpa using h3
            · simp
            · have := (Bool.and_eq_true _ _).mp h4
              have hh : (((r1.dropWhile pyWs).dropWhile isNameChar).dropWhile pyWs).head? =
                  some '\x7b' := by simpa using this.1
              rw [hp] at hh; exact hh
            · have := (Bool.and_eq_true _ _).mp h4
              have hh : (((r1.dropWhile pyWs).dropWhile isNameChar).dropWhile pyWs).getLast? =
                  some '\x7d' := by simpa using this.2
              rw [hp] at hh; exact hh
          · rw [if_neg h4] at h; exact absurd h (by simp)

/-- C9: appending a message to a transcript increases its length by
exactly one, leaves every existing message unchanged in place, and the
appended message reads back identically as the last entry. -/
theorem C9_transcript_append (c : Conversation) (role content : String) :
    (c.add role content).messages.length = c.messages.length + 1 ∧
    (c.add role content).messages.getLast? = some { role := role, content := content } ∧
    (c.add role content).messages.take c.messages.length = c.messages := by
  refine ⟨by simp [Conversation.add], ?_, ?_⟩
  · simp [Conversation.add]
  · simp [Conversation.add, List.take_left]

/-- C3 (counterexample to the literal outcome text): dispatching the
unregistered name `bogus_action` yields the text
`Unknown action 'bogus_action'.`, which is not the string
`unknown action` the claim states. -/
theorem C3_counterexample :
    (execute_action tools0 "bogus_action" [] []).1 = "Unknown action \x27bogus_action\x27." ∧
    ("Unknown action \x27bogus_action\x27." : String) ≠ "unknown action" :=
  ⟨rfl, by decide⟩

/-- C3 (amended): a name absent from the registry yields the failure text
`Unknown action '<name>'.` and invokes no capability, while
`open_app` with name `notepad` succeeds with text `Opened notepad.`
(which references `notepad`). -/
theorem C3_unknown_action :
    (∀ (t : Tools) (name : String) (args : List (String × JValue)) (stdin : List String),
      TOOLBOX_names.contains name = false →
      execute_action t name args stdin = ("Unknown action \x27" ++ name ++ "\x27.", [], stdin)) ∧
    execute_action tools0 "open_app" [("name", JValue.str "notepad")] [] =
      ("Opened notepad.", ["open_app"], []) := by
  constructor
  · intro t name args stdin h
    have h2 : name ∉ TOOLBOX_names := by simpa using h
    simp [execute_action, h2]
  · rfl

/-- C3 witness: the amended theorem applied at the concrete unregistered
name `bogus_action`. -/
theorem C3_unknown_action_w :
    execute_action tools0 "bogus_action" [] [] =
      ("Unknown action \x27" ++ "bogus_action" ++ "\x27.", [], ([] : List String)) :=
  C3_unknown_action.1 tools0 "bogus_action" [] [] (by decide)

/-- C1 (counterexample to the literal outcome text): declining the
`system_command` prompt returns `Cancelled.` (with the shell capability
never invoked), not a text `denied`. -/
theorem C1_counterexample :
    execute_action tools0 "system_command" [("cmd", JValue.str "echo hi")] ["n"] =
      ("Cancelled.", [], []) ∧
    ("Cancelled." : String) ≠ "denied" :=
  ⟨rfl, by decide⟩

/-- C1 (amended): every `system_command` dispatch prompts the operator
even though `system_command` is not in the destructive set; any response
that does not strip/lower-case to `y` makes the dispatcher return the
text `Cancelled.` with the underlying shell capability function never
invoked (empty invocation list). -/
theorem C1_system_command_decline (t : Tools) (args : List (String × JValue))
    (resp : String) (rest : List String)
    (h : pyLowerS (pyStripS resp) ≠ "y") :
    DESTRUCTIVE_ACTIONS.contains "system_command" = false ∧
    execute_action t "system_command" args (resp :: rest) = ("Cancelled.", [], rest) := by
  refine ⟨by decide, ?_⟩
  have hb : executeBody t "system_command" args (resp :: rest) =
      (Except.ok "Cancelled.", [], rest) := by
    show (if pyLowerS (pyStripS resp) ≠ "y"
          then ((Except.ok "Cancelled." : Except String String), ([] : List String), rest)
          else (t.system_command (dictGetD args "cmd" (JValue.str "")),
                ["system_command"], rest)) =
        (Except.ok "Cancelled.", [], rest)
    rw [if_pos h]
  show (match executeBody t "system_command" args (resp :: rest) with
        | (Except.ok s, invs, st) => (s, invs, st)
        | (Except.error e, invs, st) => ("Tool execution failed: " ++ e, invs, st)) =
      ("Cancelled.", [], rest)
  rw [hb]

/-- C1 witness: the amended theorem applied to the response `n`. -/
theorem C1_system_command_decline_w :
    DESTRUCTIVE_ACTIONS.contains "system_command" = false ∧
    execute_action tools0 "system_command" [("cmd", JValue.str "echo hi")] ["n"] =
      ("Cancelled.", [], []) :=
  C1_system_command_decline tools0 [("cmd", JValue.str "echo hi")] "n" [] (by decide)

/-- C5: a line that matches the action regex but whose payload is not
valid JSON makes `try_parse_action` return `none` (the caller then
treats the reply as a plain final answer); totality of the model makes
"never raises" structural. -/
theorem C5_invalid_json (s name payload : String)
    (h1 : matchActionLine s = some (name, payload))
    (h2 : json_loads payload = none) :
    try_parse_action s = none := by
  simp [try_parse_action, h1, h2]

/-- C5 witness: the theorem applied to `ACTION foo {bad}`. -/
theorem C5_invalid_json_w : try_parse_action "ACTION foo \x7bbad\x7d" = none :=
  C5_invalid_json "ACTION foo \x7bbad\x7d" "foo" "\x7bbad\x7d" rfl rfl

/-- C6: for a registered action, any exception the `try` body raises --
argument-coercion failures as well as exceptions out of the invoked
capability -- is caught and returned as the failed text outcome
`Tool execution failed: <description>`; `execute_action` itself is a
total function into text outcomes, so no exception propagates. -/
theorem C6_exceptions_caught (t : Tools) (action_name : String)
    (args : List (String × JValue)) (stdin : List String)
    (e : String) (invs st : List String)
    (h1 : TOOLBOX_names.contains action_name = true)
    (h2 : executeBody t action_name args stdin = (Except.error e, invs, st)) :
    execute_action t action_name args stdin = ("Tool execution failed: " ++ e, invs, st) := by
  have h3 : action_name ∈ TOOLBOX_names := by simpa using h1
  simp [execute_action, h3, h2]

/-- C6 witness: the theorem applied to a coercion failure (`scroll` with
a non-numeric `amount`). -/
theorem C6_exceptions_caught_w :
    execute_action tools0 "scroll" [("amount", JValue.str "abc")] [] =
      ("Tool execution failed: " ++ "invalid literal for int() with base 10: \x27abc\x27",
       [], []) :=
  C6_exceptions_caught tools0 "scroll" [("amount", JValue.str "abc")] []
    "invalid literal for int() with base 10: \x27abc\x27" [] [] rfl rfl

/-- C2 (counterexample to the literal outcome text): the turn in which
the model requests `shutdown` and the operator answers `n` ends with the
final answer `Action denied.`, not a text `denied`. -/
theorem C2_counterexample :
    runTurn llmShutdown tools0 { messages := [{ role := "system", content := "sys" }] }
        "shut down the PC" ["n"] =
      Except.ok {
        conv := { messages := [
          { role := "system", content := "sys" },
          { role := "user", content := "shut down the PC" },
          { role := "assistant", content := "Action denied." }] },
        finalAnswer := some "Action denied.", modelCalls := 1,
        invocations := [], stdin := [] } ∧
    ("Action denied." : String) ≠ "denied" :=
  ⟨rfl, by decide⟩

/-- C2 (amended): for any action name in the destructive set, a declined
confirmation makes the turn end with the final answer `Action denied.`
(appended as the assistant message), with no capability invoked and no
second model call. -/
theorem C2_destructive_decline
    (llm : Conversation → Except String String) (t : Tools) (conv : Conversation)
    (userText a resp : String) (rest : List String)
    (name : String) (args : List (String × JValue))
    (h1 : llm (conv.add "user" userText) = Except.ok a)
    (h2 : try_parse_action a = some (name, args))
    (h3 : DESTRUCTIVE_ACTIONS.contains name = true)
    (h4 : pyLowerS (pyStripS resp) ≠ "y") :
    runTurn llm t conv userText (resp :: rest) =
      Except.ok { conv := (conv.add "user" userText).add "assistant" "Action denied.",
                  finalAnswer := some "Action denied.",
                  modelCalls := 1, invocations := [], stdin := rest } := by
  have hb : (pyLowerS (pyStripS resp) == "y") = false := beq_eq_false_iff_ne.mpr h4
  have hm : name ∈ DESTRUCTIVE_ACTIONS := by simpa using h3
  have hc : maybe_confirm name (resp :: rest) = Except.ok (false, rest) := by
    simp [maybe_confirm, hm, hb]
  simp [runTurn, h1, h2, hc]

/-- C2 witness: the amended theorem applied to the shutdown scenario with
operator response `n`. -/
theorem C2_destructive_decline_w :
    runTurn llmShutdown tools0 { messages := [{ role := "system", content := "sys" }] }
        "shut down the PC" ["n"] =
      Except.ok {
        conv := (Conversation.add { messages := [{ role := "system", content := "sys" }] }
            "user" "shut down the PC").add "assistant" "Action denied.",
        finalAnswer := some "Action denied.", modelCalls := 1,
        invocations := [], stdin := [] } :=
  C2_destructive_decline llmShutdown tools0
    { messages := [{ role := "system", content := "sys" }] }
    "shut down the PC" "ACTION shutdown \x7b\x7d" "n" [] "shutdown" []
    rfl rfl (by decide) (by decide)

/-- C7: when a turn performs its tool round-trip, the second completion
is emitted unconditionally as the final answer: even when it itself
parses as an action line (the final hypothesis), it is appended raw, no
further capability invocation happens beyond those of the single
dispatch, and exactly two model calls are made. -/
theorem C7_one_round_trip
    (llm : Conversation → Except String String) (t : Tools) (conv : Conversation)
    (userText a : String) (name : String) (args : List (String × JValue))
    (st0 st1 st2 : List String) (out fa : String) (invs : List String)
    (n2 : String) (a2 : List (String × JValue))
    (h1 : llm (conv.add "user" userText) = Except.ok a)
    (h2 : try_parse_action a = some (name, args))
    (h3 : maybe_confirm name st0 = Except.ok (true, st1))
    (h4 : execute_action t name args st1 = (out, invs, st2))
    (h5 : llm (((conv.add "user" userText).add "assistant" a).add "user"
        ("Tool result:\n" ++ out)) = Except.ok fa)
    (_h6 : try_parse_action fa = some (n2, a2)) :
    runTurn llm t conv userText st0 =
      Except.ok {
        conv := ((((conv.add "user" userText).add "assistant" a).add "user"
          ("Tool result:\n" ++ out)).add "assistant" fa),
        finalAnswer := some fa, modelCalls := 2,
        invocations := invs, stdin := st2 } := by
  simp [runTurn, h1, h2, h3, h4, h5]

/-- C7 witness: the theorem applied to a concrete turn whose follow-up
completion embeds `ACTION type_text ...`; the final answer is that raw
text and only `open_app` was invoked. -/
theorem C7_one_round_trip_w :
    runTurn llm7 tools0 { messages := [{ role := "system", content := "sys" }] }
        "open notepad" [] =
      Except.ok {
        conv := ((((Conversation.add { messages := [{ role := "system", content := "sys" }] }
            "user" "open notepad").add "assistant"
            "ACTION open_app \x7b\"name\":\"notepad\"\x7d").add "user"
            ("Tool result:\n" ++ "Opened notepad.")).add "assistant"
            "ACTION type_text \x7b\"text\":\"hello\"\x7d"),
        finalAnswer := some "ACTION type_text \x7b\"text\":\"hello\"\x7d",
        modelCalls := 2, invocations := ["open_app"], stdin := [] } :=
  C7_one_round_trip llm7 tools0 { messages := [{ role := "system", content := "sys" }] }
    "open notepad" "ACTION open_app \x7b\"name\":\"notepad\"\x7d"
    "open_app" [("name", JValue.str "notepad")] [] [] []
    "Opened notepad." "ACTION type_text \x7b\"text\":\"hello\"\x7d" ["open_app"]
    "type_text" [("text", JValue.str "hello")]
    rfl rfl rfl rfl rfl rfl

/-- C8: the notepad end-to-end scenario (for any system prompt): the
turn ends with the follow-up completion as final answer and the
transcript holds exactly the five messages system, user,
assistant-action, user-tool-result, assistant-final, in order. -/
theorem C8_notepad_five_messages (sysPrompt : String) :
    runTurn llm8 tools0 { messages := [{ role := "system", content := sysPrompt }] }
        "open notepad for me" [] =
      Except.ok {
        conv := { messages := [
          { role := "system", content := sysPrompt },
          { role := "user", content := "open notepad for me" },
          { role := "assistant", content := "ACTION open_app \x7b\"name\":\"notepad\"\x7d" },
          { role := "user", content := "Tool result:\nOpened notepad." },
          { role := "assistant", content := "I\x27ve opened Notepad for you." }] },
        finalAnswer := some "I\x27ve opened Notepad for you.",
        modelCalls := 2, invocations := ["open_app"], stdin := [] } := rfl

/-- C10: every destructive name is unregistered: the toolbox does not
contain it, an affirmative confirmation still passes it to the
dispatcher, and the dispatcher returns the unknown-action failure with
no capability invoked -- so no destructive action can execute. -/
theorem C10_destructive_unregistered (name : String) (h : name ∈ DESTRUCTIVE_ACTIONS) :
    TOOLBOX_names.contains name = false ∧
    (∀ rest : List String, maybe_confirm name ("y" :: rest) = Except.ok (true, rest)) ∧
    ∀ (t : Tools) (args : List (String × JValue)) (stdin : List String),
      execute_action t name args stdin = ("Unknown action \x27" ++ name ++ "\x27.", [], stdin) := by
  fin_cases h <;>
    exact ⟨by decide, fun rest => rfl, fun t args stdin => rfl⟩

/-- C10 witness: the theorem applied to `shutdown`, with its parts
instantiated at concrete arguments. -/
theorem C10_destructive_unregistered_w :
    TOOLBOX_names.contains "shutdown" = false ∧
    maybe_confirm "shutdown" ["y"] = Except.ok (true, []) ∧
    execute_action tools0 "shutdown" [] [] =
      ("Unknown action \x27" ++ "shutdown" ++ "\x27.", [], ([] : List String)) :=
  ⟨(C10_destructive_unregistered "shutdown" (by decide)).1,
   (C10_destructive_unregistered "shutdown" (by decide)).2.1 [],
   (C10_destructive_unregistered "shutdown" (by decide)).2.2 tools0 [] []⟩

/-- C4 (stated as the contrapositive characterization): whenever
`try_parse_action` succeeds, the stripped input decomposes exactly as
the literal `ACTION`, whitespace, the returned name, whitespace, and a
brace-delimited payload that is in its entirety valid JSON denoting the
returned argument object.  Hence any non-whitespace content before the
`ACTION` keyword, or after the closing brace of the JSON object, makes
such a decomposition impossible and forces the `no action` result --
the parser never extracts a partial match out of surrounding prose. -/
theorem C4_no_surrounding_prose (s : String) (name : String)
    (args : List (String × JValue))
    (h : try_parse_action s = some (name, args)) :
    ∃ w1 nm w2 p : List Char,
      pyStripL s.data = ("ACTION".data) ++ w1 ++ nm ++ w2 ++ p ∧
      w1 ≠ [] ∧ w1.all pyWs = true ∧
      nm ≠ [] ∧ nm.all isNameChar = true ∧ name = ⟨nm⟩ ∧
      w2 ≠ [] ∧ w2.all pyWs = true ∧
      p.head? = some '\x7b' ∧ p.getLast? = some '\x7d' ∧
      json_loads ⟨p⟩ = some (JValue.obj args) := by
  unfold try_parse_action at h
  cases hm : matchActionLine s with
  | none => rw [hm] at h; exact absurd h (by simp)
  | some np =>
    obtain ⟨nme, payload⟩ := np
    rw [hm] at h
    have h2 : (match json_loads payload with
        | some (JValue.obj kvs) => some (nme, kvs)
        | _ => none) = some (name, args) := h
    cases hj : json_loads payload with
    | none => rw [hj] at h2; exact absurd h2 (by simp)
    | some v =>
      rw [hj] at h2
      cases v with
      | obj kvs =>
        obtain ⟨hname, hargs⟩ : nme = name ∧ kvs = args := by
          constructor <;> injection h2 with h' <;> cases h' <;> rfl
        unfold matchActionLine at hm
        cases hL : matchActionLineL (pyStripL s.data) with
        | none => rw [hL] at hm; exact absurd hm (by simp)
        | some q =>
          obtain ⟨nmL, pL⟩ := q
          rw [hL] at hm
          have hm2 : (some ((⟨nmL⟩ : String), (⟨pL⟩ : String)) :
              Option (String × String)) = some (nme, payload) := hm
          obtain ⟨hnme, hpay⟩ : (⟨nmL⟩ : String) = nme ∧ (⟨pL⟩ : String) = payload := by
            constructor <;> injection hm2 with h' <;> cases h' <;> rfl
          obtain ⟨w1, w2, heq, hw1, hw1a, hnm, hnma, hw2, hw2a, hph, hpl⟩ :=
            matchActionLineL_shape hL
          refine ⟨w1, nmL, w2, pL, heq, hw1, hw1a, hnm, hnma, ?_, hw2, hw2a, hph, hpl, ?_⟩
          · rw [← hname, ← hnme]
          · rw [hpay, hj, hargs]
      | null => exact absurd h2 (by simp)
      | bool b => exact absurd h2 (by simp)
      | num n => exact absurd h2 (by simp)
      | flt raw => exact absurd h2 (by simp)
      | str s2 => exact absurd h2 (by simp)
      | arr xs => exact absurd h2 (by simp)

/-- C4 witness: the characterization applied to the concrete input
`ACTION open_app {}`. -/
theorem C4_no_surrounding_prose_w :
    ∃ w1 nm w2 p : List Char,
      pyStripL ("ACTION open_app \x7b\x7d" : String).data =
        ("ACTION".data) ++ w1 ++ nm ++ w2 ++ p ∧
      w1 ≠ [] ∧ w1.all pyWs = true ∧
      nm ≠ [] ∧ nm.all isNameChar = true ∧ ("open_app" : String) = ⟨nm⟩ ∧
      w2 ≠ [] ∧ w2.all pyWs = true ∧
      p.head? = some '\x7b' ∧ p.getLast? = some '\x7d' ∧
      json_loads ⟨p⟩ = some (JValue.obj []) :=
  C4_no_surrounding_prose "ACTION open_app \x7b\x7d" "open_app" [] rfl

end Jarvis
